import Mathlib

/-!
Verification development for the `pinCustomer` repository
(`customer-pin-mapper`: a delivery-pin / navigation web tool).

The definitions below are shallow embeddings of the TypeScript source:

* `WakeLockSt`, `requestWakeLock`, `releaseWakeLock`
  — `components/MapViewer.tsx`, `requestWakeLock` / `releaseWakeLock`;
* `fetchWithRetryCount` — `components/MapViewer.tsx`, `fetchWithRetry`;
* `GeoSession` and its transition functions
  — `components/MapViewer.tsx`, `startWatchingPosition`,
  `stopTrackingInternal`, `drawRoute` and the geolocation callbacks;
* `AppState`, `handleConfirmFinishJob` — `App.tsx`;
* `extractCoordsFromUrl`, `handleParse` — `components/DataInput.tsx`;
* the navigation core (urgency tiers, route-provider contract) is not
  present under the source tree (only superseded drafts of the map
  component are); those definitions are modelled from the spec and are
  marked as such in their doc comments.

JS numbers are modelled as `ℚ`, JS strings as `List Char`.
-/

namespace PinCustomer

/-! ## Wake lock (MapViewer.tsx, `requestWakeLock` / `releaseWakeLock`)

`wakeLockRef.current` holds the sentinel returned by the last successful
`navigator.wakeLock.request('screen')`.  Each successful request returns a
fresh sentinel; we number them by a running counter `acquired`, which also
counts how many acquisitions were performed. -/

structure WakeLockSt where
  current : Option ℕ
  acquired : ℕ
deriving DecidableEq

/-- `requestWakeLock`: if the API is supported, request a (fresh) lock and
store it in `wakeLockRef.current`; a failed request is swallowed and leaves
the state unchanged.  The source performs no "already held" check. -/
def requestWakeLock (supported ok : Bool) (s : WakeLockSt) : WakeLockSt :=
  if supported then
    if ok then { current := some s.acquired, acquired := s.acquired + 1 }
    else s
  else s

/-- `releaseWakeLock`: release and null the stored lock when one is held,
otherwise do nothing. -/
def releaseWakeLock (s : WakeLockSt) : WakeLockSt :=
  match s.current with
  | some _ => { s with current := none }
  | none => s

/-! ## Route fetch retry (MapViewer.tsx, `fetchWithRetry`)

`fetchWithRetry(url, retries = 3, delay = 1000)` performs one `fetch`; on a
network error or a non-2xx status it waits `delay` ms and recurses with
`retries - 1`, throwing only when `retries` is 0.  We model the sequence of
attempt outcomes by `ok : ℕ → Bool` (attempt `i` succeeds iff `ok i`) and
return the number of HTTP requests issued together with the final outcome. -/

def fetchWithRetryCount (ok : ℕ → Bool) : ℕ → ℕ → ℕ × Bool
  | retries, i =>
    if ok i then (1, true)
    else
      match retries with
      | 0 => (1, false)
      | r + 1 =>
        let p := fetchWithRetryCount ok r (i + 1)
        (p.1 + 1, p.2)

/-- Default `retries` argument of `fetchWithRetry` (the route requests in
`drawRoute` call it with this default). -/
def fetchWithRetryDefaultRetries : ℕ := 3

/-- Default `delay` argument (milliseconds) of `fetchWithRetry`. -/
def fetchWithRetryDelayMs : ℕ := 1000

/-! ## Pin store and delivery history (App.tsx) -/

structure CustomerPoint where
  id : List Char
  name : List Char
  lat : ℚ
  lng : ℚ
  orderValue : Option ℚ
  note : Option (List Char)
deriving DecidableEq

structure DeliveryRecord where
  id : List Char
  customerName : List Char
  timestamp : List Char
  photoUrl : List Char
  locLat : ℚ
  locLng : ℚ
deriving DecidableEq

structure AppState where
  points : List CustomerPoint
  history : List DeliveryRecord
deriving DecidableEq

/-- `handleConfirmFinishJob` (App.tsx): given the point being finished
(`finishingPoint`) and the captured photo, build a `DeliveryRecord` carrying
the point's name and lat/lng, append it to the history, and filter the point's
id out of the active point list.  `recId` and `ts` stand for the
`history-${Date.now()}` id and the ISO timestamp. -/
def handleConfirmFinishJob (recId ts photo : List Char) (p : CustomerPoint)
    (s : AppState) : AppState :=
  { points := s.points.filter (fun q => decide (q.id ≠ p.id))
    history := s.history ++
      [{ id := recId, customerName := p.name, timestamp := ts,
         photoUrl := photo, locLat := p.lat, locLng := p.lng }] }

/-! ## Tracking session (MapViewer.tsx)

State of the map/tracking component: the geolocation watch
(`watchIdRef`, with the accuracy mode the current subscription was created
with), the manual iOS fallback timeout (`fallbackTimeoutRef`, recorded with
its duration in ms while pending), the user marker and accuracy circle, the
`isTracking` flag, a coarse wake-lock flag, the drawn route layer
(`routeLayerRef`, as its polyline geometry), a counter producing fresh watch
ids, the list of watch ids passed to `clearWatch`, and the emitted toasts. -/

inductive ToastEvt
  | searchingHigh
  | searchingLow
  | slowGpsSwitch
  | foundPosition
  | permissionDenied
deriving DecidableEq

structure GeoSession where
  watchId : Option ℕ
  watchHigh : Bool
  fallbackTimer : Option ℕ
  userMarker : Option (ℚ × ℚ)
  accuracyCircle : Option ℚ
  isTracking : Bool
  wakeHeld : Bool
  routeLayer : Option (List (ℚ × ℚ))
  nextWatchId : ℕ
  cleared : List ℕ
  toasts : List ToastEvt
deriving DecidableEq

/-- `navigator.geolocation.clearWatch(watchIdRef.current)` followed by
`watchIdRef.current = null` (a no-op when no watch is registered). -/
def clearWatch (s : GeoSession) : GeoSession :=
  match s.watchId with
  | some w => { s with watchId := none, cleared := s.cleared ++ [w] }
  | none => s

/-- `clearTimeout(fallbackTimeoutRef.current)` followed by nulling the ref. -/
def clearFallbackTimer (s : GeoSession) : GeoSession :=
  { s with fallbackTimer := none }

/-- `startWatchingPosition(enableHighAccuracy)`: clear any old watcher and
timeout, toast the searching message, arm the 6000 ms fallback timeout when
(and only when) high accuracy was requested, and register a fresh
`watchPosition` subscription in the requested mode. -/
def startWatchingPosition (high : Bool) (s : GeoSession) : GeoSession :=
  let s1 := clearFallbackTimer (clearWatch s)
  let s2 := { s1 with toasts := s1.toasts ++
    [if high then ToastEvt.searchingHigh else ToastEvt.searchingLow] }
  let s3 := if high then { s2 with fallbackTimer := some 6000 } else s2
  { s3 with watchId := some s3.nextWatchId, watchHigh := high,
            nextWatchId := s3.nextWatchId + 1 }

/-- `updateUserMarker`: create the marker/accuracy circle on the first fix
(with a success toast), update them afterwards. -/
def updateUserMarker (lat lng acc : ℚ) (s : GeoSession) : GeoSession :=
  match s.userMarker with
  | none => { s with userMarker := some (lat, lng), accuracyCircle := some acc,
                     toasts := s.toasts ++ [ToastEvt.foundPosition] }
  | some _ => { s with userMarker := some (lat, lng), accuracyCircle := some acc }

/-- Success callback of the `watchPosition` subscription: cancel the pending
fallback timeout, then update the user marker. -/
def onWatchPosition (lat lng acc : ℚ) (s : GeoSession) : GeoSession :=
  updateUserMarker lat lng acc (clearFallbackTimer s)

/-- The 6000 ms fallback timeout fires (possible only while it is pending):
if no position marker exists yet, toast and restart the watch in
low-accuracy mode; otherwise do nothing. -/
def onFallbackTimerFire (s : GeoSession) : GeoSession :=
  match s.fallbackTimer with
  | none => s
  | some _ =>
    let s1 := { s with fallbackTimer := none }
    if s1.userMarker.isSome then s1
    else startWatchingPosition false
      { s1 with toasts := s1.toasts ++ [ToastEvt.slowGpsSwitch] }

/-- `stopTrackingInternal`: clear the watch and the fallback timeout, remove
the user marker and accuracy circle, release the wake lock, clear the
tracking flag.  Note: it does not touch `routeLayer` and performs no
cancellation of in-flight route requests. -/
def stopTrackingInternal (s : GeoSession) : GeoSession :=
  let s1 := clearFallbackTimer (clearWatch s)
  { s1 with userMarker := none, accuracyCircle := none,
            wakeHeld := false, isTracking := false }

/-- Error callback of the `watchPosition` subscription (`error.code`:
1 = permission denied, 2 = position unavailable, 3 = timeout): cancel the
pending timeout; if the failing subscription was high-accuracy, restart in
low-accuracy mode and return (for every error code); otherwise tear the
session down and toast when the error is a permission denial, and do nothing
further for codes 2 and 3 (their messages are computed but only code 1
reaches `onShowToast`). -/
def onWatchError (code : ℕ) (s : GeoSession) : GeoSession :=
  let s1 := clearFallbackTimer s
  if s1.watchHigh then startWatchingPosition false s1
  else if code = 1 then
    let s2 := stopTrackingInternal s1
    { s2 with toasts := s2.toasts ++ [ToastEvt.permissionDenied] }
  else s1

/-- `toggleTracking` start branch (HTTPS and geolocation support assumed):
set the tracking flag, request the wake lock (best effort, `wakeOk` tells
whether the request succeeds), and start watching in high-accuracy mode.
The kickstart `getCurrentPosition` resolves asynchronously and is modelled
by `onKickstartPosition`. -/
def startTracking (wakeOk : Bool) (s : GeoSession) : GeoSession :=
  startWatchingPosition true
    { s with isTracking := true, wakeHeld := s.wakeHeld || wakeOk }

/-- Kickstart `getCurrentPosition` success callback: show the cached position
only when the watcher has not produced a marker yet. -/
def onKickstartPosition (lat lng acc : ℚ) (s : GeoSession) : GeoSession :=
  if s.userMarker.isSome then s else updateUserMarker lat lng acc s

/-- Success continuation of `drawRoute` (after `fetchWithRetry` resolved and
the response parsed to a usable route): remove the previous route layer if
any and install the new one.  The source guards this on nothing — no
session-generation check, no `isTracking` check. -/
def applyRouteSuccess (geom : List (ℚ × ℚ)) (s : GeoSession) : GeoSession :=
  { s with routeLayer := some geom }

/-! ## Pin import parser (components/DataInput.tsx)

JS strings are embedded as `List Char` (`Str`); the string operations used
by `handleParse` — `trim`, `split` on a single-character separator,
`includes`, `parseFloat`, and the two coordinate regexes of
`extractCoordsFromUrl` — are modelled below.  `trim` uses the common ASCII
whitespace characters; exotic Unicode whitespace and non-finite
`parseFloat` results (`Infinity`) are outside the scope of this embedding. -/

abbrev Str := List Char

def isWs (c : Char) : Bool :=
  c = ' ' || c = '\t' || c = '\n' || c = '\r' || c = '\x0b' || c = '\x0c'

/-- JS `String.prototype.trim`. -/
def trimList (s : Str) : Str :=
  ((s.dropWhile isWs).reverse.dropWhile isWs).reverse

/-- JS `String.prototype.split` with a single-character separator (the
source splits on `'\t'`, `','` and `'\n'` only). -/
def splitOnChar (c : Char) : Str → List Str
  | [] => [[]]
  | x :: xs =>
    let r := splitOnChar c xs
    if x = c then [] :: r
    else
      match r with
      | [] => [[x]]
      | h :: t => (x :: h) :: t

/-- Does `pat` occur at the start of `s`? -/
def headMatches : Str → Str → Bool
  | [], _ => true
  | _ :: _, [] => false
  | a :: as, b :: bs => a = b && headMatches as bs

/-- JS `String.prototype.includes`: does `pat` occur anywhere in `s`? -/
def containsSub (pat : Str) : Str → Bool
  | [] => headMatches pat []
  | c :: rest => headMatches pat (c :: rest) || containsSub pat rest

/-- Strip `pat` from the start of `s`, if it occurs there. -/
def stripStart : Str → Str → Option Str
  | [], s => some s
  | _ :: _, [] => none
  | a :: as, b :: bs => if a = b then stripStart as bs else none

def digitsToNat (ds : Str) : ℕ :=
  ds.foldl (fun a c => 10 * a + (c.toNat - 48)) 0

/-- One `[-+]?\d+\.\d+` match anchored at the start of `s` (the shape of
both capture-group pairs in `extractCoordsFromUrl`); returns the value of
the matched literal (what `parseFloat` yields on the captured text) and the
rest of the string.  Both digit runs are maximal, which is exactly the
regex's greedy behavior here since each `\d+` is followed by a non-digit
literal. -/
def decimalNum (s : Str) : Option (ℚ × Str) :=
  let sp : ℤ × Str :=
    match s with
    | '-' :: r => (-1, r)
    | '+' :: r => (1, r)
    | r => (1, r)
  match List.span Char.isDigit sp.2 with
  | ([], _) => none
  | (ds, rest1) =>
    match rest1 with
    | '.' :: rest2 =>
      match List.span Char.isDigit rest2 with
      | ([], _) => none
      | (fs, rest3) =>
        some (mkRat (sp.1 * ((digitsToNat ds : ℤ) * 10 ^ fs.length + digitsToNat fs))
          (10 ^ fs.length), rest3)
    | _ => none

/-- A full `lat,lng` pair match anchored at the start of `s`. -/
def coordPairHere (s : Str) : Option (ℚ × ℚ) :=
  match decimalNum s with
  | some (a, ',' :: r2) =>
    match decimalNum r2 with
    | some (b, _) => some (a, b)
    | none => none
  | _ => none

/-- Leftmost occurrence of `pat` followed by a coordinate pair (JS
`String.prototype.match` semantics for the two patterns used). -/
def scanPair (pat : Str) : Str → Option (ℚ × ℚ)
  | [] =>
    (match stripStart pat [] with
     | some r => coordPairHere r
     | none => none)
  | c :: rest =>
    match
      (match stripStart pat (c :: rest) with
       | some r => coordPairHere r
       | none => none) with
    | some pr => some pr
    | none => scanPair pat rest

/-- `extractCoordsFromUrl` (DataInput.tsx): try the
`q=([-+]?\d+\.\d+),([-+]?\d+\.\d+)` pattern first, then the
`@([-+]?\d+\.\d+),([-+]?\d+\.\d+)` pattern. -/
def extractCoordsFromUrl (url : Str) : Option (ℚ × ℚ) :=
  match scanPair ['q', '='] url with
  | some pr => some pr
  | none => scanPair ['@'] url

/-- JS `parseFloat`: skip leading whitespace, optional sign, decimal
digits with optional fraction, optional exponent; `none` models `NaN`. -/
def jsParseFloat (s : Str) : Option ℚ :=
  let sp : ℤ × Str :=
    match s.dropWhile isWs with
    | '-' :: r => (-1, r)
    | '+' :: r => (1, r)
    | r => (1, r)
  let ip := List.span Char.isDigit sp.2
  let fp : Str × Str :=
    match ip.2 with
    | '.' :: r => List.span Char.isDigit r
    | _ => ([], ip.2)
  if ip.1.isEmpty && fp.1.isEmpty then none
  else
    let ex : ℤ :=
      match fp.2 with
      | 'e' :: r | 'E' :: r =>
        let esp : ℤ × Str :=
          match r with
          | '-' :: r2 => (-1, r2)
          | '+' :: r2 => (1, r2)
          | r2 => (1, r2)
        let ed := List.span Char.isDigit esp.2
        if ed.1.isEmpty then 0 else esp.1 * (digitsToNat ed.1 : ℤ)
      | _ => 0
    let mant : ℤ := sp.1 * ((digitsToNat ip.1 : ℤ) * 10 ^ fp.1.length + digitsToNat fp.1)
    some (if 0 ≤ ex then mkRat (mant * 10 ^ ex.toNat) (10 ^ fp.1.length)
          else mkRat mant (10 ^ fp.1.length * 10 ^ (-ex).toNat))

/-- The `'google.com/maps'` marker. -/
def gmapsPat : Str := ("google.com/maps").data

/-- The `'maps.app.goo.gl'` marker. -/
def googlPat : Str := ("maps.app.goo.gl").data

/-- A field is a map link when it includes either marker (the `findIndex`
predicate of `handleParse`). -/
def isMapLink (p : Str) : Bool := containsSub gmapsPat p || containsSub googlPat p

/-- Split a line into its trimmed fields: split on tab; if that yields a
single field, split on comma instead; then trim every field. -/
def lineFields (line : Str) : List Str :=
  let parts0 := splitOnChar '\t' line
  let parts1 := if parts0.length ≤ 1 then splitOnChar ',' line else parts0
  parts1.map trimList

/-- Index of the first field containing a map link. -/
def googleLinkIdx (parts : List Str) : Option ℕ := parts.findIdx? isMapLink

/-- JS field access `parts[k]`: the field, or the empty string when the
index is out of range (JS yields `undefined`, which the source only ever
feeds to truthiness tests and `parseFloat`, where it behaves like a
non-value; `[]` plays that role here). -/
def fieldAt (parts : List Str) (k : ℕ) : Str := parts.getD k []

/-- The fallback name `Customer ${index + 1}`. -/
def defaultName (i : ℕ) : Str := ("Customer ").data ++ Nat.toDigits 10 (i + 1)

/-- The generated id `p-${Date.now()}-${index}` (with `Date.now()`
supplied as the parameter `now`). -/
def pointId (now i : ℕ) : Str :=
  ("p-").data ++ Nat.toDigits 10 now ++ ('-' :: Nat.toDigits 10 i)

/-- The per-line body of `handleParse` (DataInput.tsx): skip blank lines;
split into trimmed fields; if some field contains a map link, take the
coordinates extracted from that field (skipping the line when extraction
fails) and pick the name by the field-count heuristic; otherwise fall back
to the legacy CSV shape where the first two fields are lat and lng and the
optional third is the name.  Returns the (name, lat, lng) triple of the
point the line yields, if any. -/
def parseLine (i : ℕ) (line : Str) : Option (Str × ℚ × ℚ) :=
  if (trimList line).isEmpty then none
  else
    match googleLinkIdx (lineFields line) with
    | some mi =>
      match extractCoordsFromUrl (fieldAt (lineFields line) mi) with
      | some (la, lo) =>
        let name :=
          if 6 < (lineFields line).length then
            (if (fieldAt (lineFields line) 3).isEmpty then defaultName i
             else fieldAt (lineFields line) 3)
          else if (lineFields line).length = 2 then
            fieldAt (lineFields line) (if mi = 0 then 1 else 0)
          else if 3 ≤ (lineFields line).length then
            fieldAt (lineFields line) 0
          else defaultName i
        some (name, la, lo)
      | none => none
    | none =>
      if 2 ≤ (lineFields line).length then
        match jsParseFloat (fieldAt (lineFields line) 0),
            jsParseFloat (fieldAt (lineFields line) 1) with
        | some la, some lo =>
          some ((if (fieldAt (lineFields line) 2).isEmpty then defaultName i
                 else fieldAt (lineFields line) 2), la, lo)
        | _, _ => none
      else none

/-- Build the imported `CustomerPoint` from a parsed triple. -/
def mkImportedPoint (now i : ℕ) (r : Str × ℚ × ℚ) : CustomerPoint :=
  { id := pointId now i, name := r.1, lat := r.2.1, lng := r.2.2,
    orderValue := none, note := none }

/-- `handleParse` (DataInput.tsx): trim the input text, split it into
lines, and collect the points the lines yield, in order. -/
def handleParse (now : ℕ) (text : Str) : List CustomerPoint :=
  (List.enumFrom 0 (splitOnChar '\n' (trimList text))).filterMap
    (fun pr => (parseLine pr.1 pr.2).map (mkImportedPoint now pr.1))

/-- The coordinates a line is selected by, per the amended claim: the
coordinates extracted from the first link-bearing trimmed field, or, when
no field bears a link, the `parseFloat` values of the first two fields. -/
def coordsOfLine (line : Str) : Option (ℚ × ℚ) :=
  match googleLinkIdx (lineFields line) with
  | some mi => extractCoordsFromUrl (fieldAt (lineFields line) mi)
  | none =>
    match jsParseFloat (fieldAt (lineFields line) 0),
        jsParseFloat (fieldAt (lineFields line) 1) with
    | some la, some lo =>
      if 2 ≤ (lineFields line).length then some (la, lo) else none
    | _, _ => none

/-- The amended selection predicate: a line yields a point iff it is not
blank and `coordsOfLine` succeeds on it. -/
def amendedLineYields (line : Str) : Bool :=
  !(trimList line).isEmpty && (coordsOfLine line).isSome

/-- The claim's literal selection predicate, following the claim's words:
the line yields a point iff the line (as a whole) contains a Google-Maps
URL from which a `q=lat,lng` or `@lat,lng` decimal pair can be extracted,
or, when no such link occurs in the line, its first two tab/comma-separated
fields both parse as numbers. -/
def claimedLineYields (line : Str) : Bool :=
  if containsSub gmapsPat line || containsSub googlPat line then
    (extractCoordsFromUrl line).isSome
  else
    match lineFields line with
    | a :: b :: _ => (jsParseFloat a).isSome && (jsParseFloat b).isSome
    | _ => false

/-- A comma-separated line whose Google-Maps URL itself contains the
coordinate comma: splitting on commas cuts the URL apart. -/
def exLineC : Str := ("https://www.google.com/maps?q=16.4,103.5").data

/-- A tab-separated sample line: name field, then the maps link. -/
def exLineW : Str :=
  ("Ton\thttps://www.google.com/maps?q=16.440272,103.497242").data

/-! ## Concrete example states -/

/-- A session acquiring in high-accuracy mode. -/
def exHighSession : GeoSession :=
  { watchId := some 0, watchHigh := true, fallbackTimer := some 6000,
    userMarker := none, accuracyCircle := none, isTracking := true,
    wakeHeld := true, routeLayer := none, nextWatchId := 1, cleared := [],
    toasts := [ToastEvt.searchingHigh] }

/-- A session tracking in low-accuracy mode. -/
def exLowSession : GeoSession :=
  { watchId := some 3, watchHigh := false, fallbackTimer := none,
    userMarker := some (1, 2), accuracyCircle := some 5, isTracking := true,
    wakeHeld := true, routeLayer := none, nextWatchId := 4, cleared := [],
    toasts := [] }

/-- The idle session before tracking is started. -/
def exIdleSession : GeoSession :=
  { watchId := none, watchHigh := false, fallbackTimer := none,
    userMarker := none, accuracyCircle := none, isTracking := false,
    wakeHeld := false, routeLayer := none, nextWatchId := 0, cleared := [],
    toasts := [] }

/-- A tracking session with no route drawn yet. -/
def exTrackSession : GeoSession :=
  { watchId := some 0, watchHigh := true, fallbackTimer := none,
    userMarker := some (3, 4), accuracyCircle := some 10, isTracking := true,
    wakeHeld := true, routeLayer := none, nextWatchId := 1, cleared := [],
    toasts := [] }

/-! ## Navigation core, modelled from the spec

The spec (§9) designates the feature-complete map/tracking variant — the
one with turn-by-turn instructions, urgency tiers and the route-provider
fallback — as the canonical behavior, and the source tree contains only
superseded drafts of the map component without that logic.  The definitions
in this section are therefore modelled from the spec (§4.2 and §4.4). -/

/-- JS `Math.round`: round to the nearest integer, halves toward +∞, that
is the floor of `q + 1/2`, computed as the floor division
`(2 * num + den) ⌊/⌋ (2 * den)`. -/
def jsRound (q : ℚ) : ℤ := Int.fdiv (2 * q.num + (q.den : ℤ)) (2 * (q.den : ℤ))

inductive Urgency
  | normal
  | warning
  | critical
deriving DecidableEq

/-- Modelled from the spec: `nearestIndex` of the Geo Math Utility (§4.1),
absent from the source tree.  Linear scan for the index of the
minimum-distance candidate, ties broken by first occurrence; the input is
the list of distances from the query point to each candidate. -/
def nearestIdxGo : List ℚ → ℕ → ℕ → ℚ → ℕ
  | [], _, bi, _ => bi
  | d :: tl, i, bi, bd =>
    if d < bd then nearestIdxGo tl (i + 1) i d else nearestIdxGo tl (i + 1) bi bd

/-- Modelled from the spec: `nearestIndex`, returning none on an empty
candidate sequence. -/
def nearestIndex : List ℚ → Option ℕ
  | [] => none
  | d :: tl => some (nearestIdxGo tl 1 0 d)

/-- A `NavigationInstruction` as derived per position update: the index of
the referenced step, the distance to it rounded to the nearest meter,
whether it is the "approaching destination" (last step) instruction, and
the urgency tier. -/
structure NavigationInstruction where
  targetIdx : ℕ
  distanceMeters : ℤ
  approachingDest : Bool
  urgency : Urgency
deriving DecidableEq

/-- Modelled from the spec: the urgency tiering of the Navigation State
Machine (§4.4, steps 4-5), absent from the source tree.  For an
instruction targeting the next maneuver: critical when the rounded distance
is at most 40 m, warning when at most 100 m, normal otherwise.  For the
"approaching destination" instruction (closest step is the last step):
critical when the distance is below 50 m, warning otherwise. -/
def urgencyTier (approachingDest : Bool) (d : ℤ) : Urgency :=
  if approachingDest then
    if d < 50 then Urgency.critical else Urgency.warning
  else if d ≤ 40 then Urgency.critical
  else if d ≤ 100 then Urgency.warning
  else Urgency.normal

/-- Modelled from the spec: the per-update instruction computation of the
Navigation State Machine (§4.4, steps 1-5), absent from the source tree.
`stepDists` is the list of `distanceMeters(currentPosition,
steps[i].maneuverLocation)` values, one per step of the active route (the
outputs of the distance oracle).  Find the closest step; if it is not the
last step, target the step after it; otherwise produce the "approaching
destination" instruction for the last step. -/
def navInstruction (stepDists : List ℚ) : Option NavigationInstruction :=
  match nearestIndex stepDists with
  | none => none
  | some ci =>
    match stepDists.get? (ci + 1) with
    | some dq =>
      let d := jsRound dq
      some ⟨ci + 1, d, false, urgencyTier false d⟩
    | none =>
      let d := jsRound (stepDists.getD ci 0)
      some ⟨ci, d, true, urgencyTier true d⟩

/-! ## Route provider client, modelled from the spec (§4.2) -/

structure GeoPoint where
  lat : ℚ
  lng : ℚ
deriving DecidableEq

structure RouteStep where
  locLat : ℚ
  locLng : ℚ
  maneuverType : List Char
  modifier : Option (List Char)
deriving DecidableEq

structure ParsedRoute where
  distance : ℚ
  duration : ℚ
  steps : List RouteStep
  geometry : List GeoPoint
deriving DecidableEq

/-- Outcome of one HTTP attempt against the routing service: a network
failure / non-2xx status, or a delivered response with its success flag
(`code == 'Ok'`) and parsed route list. -/
inductive AttemptOutcome
  | netFail
  | response (ok : Bool) (routes : List ParsedRoute)
deriving DecidableEq

/-- Result of a route computation: the near-zero-distance "arrived" report,
a parsed route, or the straight-line fallback (polyline, distance, steps). -/
inductive RouteResult
  | arrived (distanceMeters : ℤ)
  | computed (r : ParsedRoute)
  | fallback (polyline : List GeoPoint) (distanceMeters : ℚ)
      (steps : List RouteStep)
deriving DecidableEq

/-- Retry loop of the route provider: issue up to `budget` HTTP attempts,
retrying network failures; return the first delivered response (if any)
together with the number of requests issued. -/
def firstDelivered (att : ℕ → AttemptOutcome) :
    ℕ → ℕ → Option (Bool × List ParsedRoute) × ℕ
  | 0, _ => (none, 0)
  | k + 1, i =>
    match att i with
    | AttemptOutcome.response ok rs => (some (ok, rs), 1)
    | AttemptOutcome.netFail =>
      let p := firstDelivered att k (i + 1)
      (p.1, p.2 + 1)

/-- Modelled from the spec: `computeRoute` of the Route Provider Client
(§4.2), absent from the source tree.  `d` is the great-circle distance
`distanceMeters(origin, destination)` (the output of the distance oracle),
`att` the outcome of each HTTP attempt, `budget` the attempt budget.  If
`d < 50` m the network is skipped entirely and "arrived" is reported with
the distance rounded to the nearest meter; otherwise attempts are issued;
a malformed delivered response (non-success code or no routes) and an
exhausted budget both degrade to the straight-line `FallbackRoute`: the
two-point segment origin-destination, distance `d`, and no steps.  The
second component is the number of HTTP requests issued. -/
def computeRoute (origin dest : GeoPoint) (d : ℚ)
    (att : ℕ → AttemptOutcome) (budget : ℕ) : RouteResult × ℕ :=
  if d < 50 then (RouteResult.arrived (jsRound d), 0)
  else
    match firstDelivered att budget 0 with
    | (some (true, r :: _), n) => (RouteResult.computed r, n)
    | (some (true, []), n) => (RouteResult.fallback [origin, dest] d [], n)
    | (some (false, _), n) => (RouteResult.fallback [origin, dest] d [], n)
    | (none, n) => (RouteResult.fallback [origin, dest] d [], n)

/-- Attempt budget of the route provider (3 total attempts per the spec;
the claims about the concrete count are settled against the source's
`fetchWithRetry` above). -/
def computeRouteBudget : ℕ := 3

/-! ## Helper lemmas (shared) -/

lemma countP_not_add_countP {α : Type} (p : α → Bool) (l : List α) :
    l.countP (fun a => !(p a)) + l.countP p = l.length := by
  induction l with
  | nil => simp
  | cons a l ih =>
    by_cases h : p a = true <;> simp [List.countP_cons, h] <;> omega

/-! ## Theorems: wake lock (claim C8) -/

/-- C8, counterexample: re-requesting the wake lock while one is already held
is not a no-op in the source — `requestWakeLock` performs a second
acquisition and replaces the held lock. -/
theorem requestWakeLock_not_idempotent :
    requestWakeLock true true ⟨some 0, 1⟩ ≠ (⟨some 0, 1⟩ : WakeLockSt) ∧
    (requestWakeLock true true ⟨some 0, 1⟩).acquired = 2 ∧
    (requestWakeLock true true ⟨some 0, 1⟩).current = some 1 := by
  decide

/-- C8 (amended): `releaseWakeLock` is idempotent (composing it with itself
equals a single application, and releasing while no lock is held is a no-op);
an unsupported or failed `requestWakeLock` is a no-op; but a successful
`requestWakeLock` while a lock is held performs a second acquisition and
replaces the stored lock. -/
theorem wakeLock_idempotence (s : WakeLockSt) (b : Bool) (j a : ℕ) :
    releaseWakeLock (releaseWakeLock s) = releaseWakeLock s ∧
    releaseWakeLock ⟨none, a⟩ = (⟨none, a⟩ : WakeLockSt) ∧
    requestWakeLock false b s = s ∧
    requestWakeLock true false s = s ∧
    requestWakeLock true true ⟨some j, a⟩ = (⟨some a, a + 1⟩ : WakeLockSt) := by
  refine ⟨?_, rfl, rfl, rfl, rfl⟩
  cases h : s.current <;> simp [releaseWakeLock, h]

/-! ## Theorems: fetch retry (claim C3) -/

lemma fetchWithRetryCount_allFail (ok : ℕ → Bool) (hall : ∀ j, ok j = false) :
    ∀ r i, fetchWithRetryCount ok r i = (r + 1, false) := by
  intro r
  induction r with
  | zero => intro i; simp [fetchWithRetryCount, hall]
  | succ r ih => intro i; simp [fetchWithRetryCount, hall, ih]

lemma fetchWithRetryCount_le (ok : ℕ → Bool) :
    ∀ r i, (fetchWithRetryCount ok r i).1 ≤ r + 1 := by
  intro r
  induction r with
  | zero =>
    intro i
    by_cases h : ok i = true <;> simp [fetchWithRetryCount, h]
  | succ r ih =>
    intro i
    by_cases h : ok i = true
    · simp [fetchWithRetryCount, h]
    · simpa [fetchWithRetryCount, h, Nat.succ_le_succ_iff] using ih (i + 1)

/-- C3, counterexample: with the source's default `retries = 3`, a request
whose every attempt fails issues 4 HTTP requests (the initial attempt plus 3
retries), not 3 as the claim states. -/
theorem fetchWithRetry_four_attempts :
    (fetchWithRetryCount (fun _ => false) fetchWithRetryDefaultRetries 0).1 = 4 ∧
    ¬ (fetchWithRetryCount (fun _ => false) fetchWithRetryDefaultRetries 0).1 = 3 := by
  decide

/-- C3 (amended): for every route request whose fetch attempts all fail
(network error or non-2xx status), exactly 4 total HTTP attempts are made —
the initial attempt plus up to 3 additional retries with a fixed 1-second
(1000 ms) delay between attempts — and no 5th request is ever issued before
the failure is reported. -/
theorem fetchWithRetry_exhausted (ok : ℕ → Bool) (i : ℕ)
    (hall : ∀ j, ok j = false) :
    fetchWithRetryCount ok fetchWithRetryDefaultRetries i = (4, false) ∧
    (∀ ok2 r2 i2, (fetchWithRetryCount ok2 r2 i2).1 ≤ r2 + 1) ∧
    fetchWithRetryDelayMs = 1000 := by
  exact ⟨fetchWithRetryCount_allFail ok hall fetchWithRetryDefaultRetries i,
    fun ok2 r2 i2 => fetchWithRetryCount_le ok2 r2 i2, rfl⟩

/-- C3, witness for the amended theorem at the all-failing outcome. -/
theorem fetchWithRetry_exhausted_witness :
    fetchWithRetryCount (fun _ => false) fetchWithRetryDefaultRetries 0 = (4, false) :=
  (fetchWithRetry_exhausted (fun _ => false) 0 (fun _ => rfl)).1

/-! ## Theorems: finishing a job (claim C9) -/

/-- C9: confirming delivery completion for an active pin `p` appends exactly
one `DeliveryRecord` carrying `p`'s name and lat/lng location to the delivery
history, and removes exactly the point with `p`'s id from the active list:
the surviving points are precisely the points whose id differs from `p.id`,
kept in their original order, and the list shrinks by exactly one. -/
theorem handleConfirmFinishJob_spec (recId ts photo : List Char)
    (p : CustomerPoint) (s : AppState)
    (_hp : p ∈ s.points)
    (huniq : s.points.countP (fun q => decide (q.id = p.id)) = 1) :
    (handleConfirmFinishJob recId ts photo p s).history =
      s.history ++
        [{ id := recId, customerName := p.name, timestamp := ts,
           photoUrl := photo, locLat := p.lat, locLng := p.lng }] ∧
    (∀ q, q ∈ (handleConfirmFinishJob recId ts photo p s).points ↔
        (q ∈ s.points ∧ q.id ≠ p.id)) ∧
    (handleConfirmFinishJob recId ts photo p s).points.Sublist s.points ∧
    (handleConfirmFinishJob recId ts photo p s).points.length + 1 =
      s.points.length := by
  refine ⟨rfl, ?_, ?_, ?_⟩
  · intro q
    simp [handleConfirmFinishJob, List.mem_filter]
  · exact List.filter_sublist s.points
  · have hlen : (s.points.filter (fun q => decide (q.id ≠ p.id))).length =
        s.points.countP (fun q => decide (q.id ≠ p.id)) :=
      (List.countP_eq_length_filter _ _).symm
    have hnot : (fun q : CustomerPoint => decide (q.id ≠ p.id)) =
        (fun q : CustomerPoint => !(decide (q.id = p.id))) := by
      funext q; simp
    have hsum := countP_not_add_countP
      (fun q : CustomerPoint => decide (q.id = p.id)) s.points
    have : (handleConfirmFinishJob recId ts photo p s).points.length =
        s.points.countP (fun q : CustomerPoint => !(decide (q.id = p.id))) := by
      simpa [handleConfirmFinishJob, hnot] using hlen.trans (by rw [hnot])
    omega

/-- C9, witness: a two-pin store; finishing the first pin moves it to history
and leaves the store one shorter. -/
theorem handleConfirmFinishJob_witness :
    (handleConfirmFinishJob [] [] []
        ⟨[Char.ofNat 97], [Char.ofNat 65], 1, 2, none, none⟩
        ⟨[⟨[Char.ofNat 97], [Char.ofNat 65], 1, 2, none, none⟩,
          ⟨[Char.ofNat 98], [Char.ofNat 66], 3, 4, none, none⟩], []⟩).points.length + 1 =
      ([⟨[Char.ofNat 97], [Char.ofNat 65], 1, 2, none, none⟩,
        ⟨[Char.ofNat 98], [Char.ofNat 66], 3, 4, none, none⟩] :
          List CustomerPoint).length :=
  (handleConfirmFinishJob_spec [] [] []
    ⟨[Char.ofNat 97], [Char.ofNat 65], 1, 2, none, none⟩
    ⟨[⟨[Char.ofNat 97], [Char.ofNat 65], 1, 2, none, none⟩,
      ⟨[Char.ofNat 98], [Char.ofNat 66], 3, 4, none, none⟩], []⟩
    (by decide) (by decide)).2.2.2

/-! ## Theorems: permission denial (claim C5) -/

/-- C5, counterexample: a permission-denied error delivered while the
subscription is in high-accuracy mode does not tear the session down — the
source re-subscribes in low-accuracy mode (tracking flag still set, wake
lock still held, a new watch registered) and surfaces no error toast. -/
theorem permissionDenied_high_resubscribes :
    (onWatchError 1 exHighSession).isTracking = true ∧
    (onWatchError 1 exHighSession).watchId = some 1 ∧
    (onWatchError 1 exHighSession).watchHigh = false ∧
    (onWatchError 1 exHighSession).wakeHeld = true ∧
    ToastEvt.permissionDenied ∉ (onWatchError 1 exHighSession).toasts := by
  decide

/-- C5 (amended): a permission-denied error received while the subscription
is in low-accuracy mode tears the session down immediately (watch cleared,
wake lock released, tracking flag cleared, fallback timeout cleared) and
surfaces a user-facing error toast; received while in high-accuracy mode it
instead triggers exactly one automatic re-subscription in low-accuracy mode,
leaving the tracking flag and wake lock untouched — teardown happens only
once the denial repeats in low-accuracy mode. -/
theorem onWatchError_permission (s : GeoSession) :
    (s.watchHigh = false →
      ((onWatchError 1 s).watchId = none ∧
       (onWatchError 1 s).isTracking = false ∧
       (onWatchError 1 s).wakeHeld = false ∧
       (onWatchError 1 s).fallbackTimer = none ∧
       (onWatchError 1 s).userMarker = none ∧
       (onWatchError 1 s).toasts = s.toasts ++ [ToastEvt.permissionDenied])) ∧
    (s.watchHigh = true →
      ((onWatchError 1 s).watchHigh = false ∧
       (onWatchError 1 s).watchId.isSome = true ∧
       (onWatchError 1 s).isTracking = s.isTracking ∧
       (onWatchError 1 s).wakeHeld = s.wakeHeld)) := by
  obtain ⟨wid, wh, ft, um, ac, tr, wk, rl, nw, cl, ts⟩ := s
  constructor
  · intro h
    subst h
    cases wid <;>
      simp [onWatchError, clearFallbackTimer, clearWatch, stopTrackingInternal]
  · intro h
    subst h
    cases wid <;>
      simp [onWatchError, clearFallbackTimer, clearWatch, startWatchingPosition]

/-- C5, witness: the amended theorem applied to a concrete low-accuracy
session (teardown) and a concrete high-accuracy session (fallback). -/
theorem onWatchError_permission_witness :
    (onWatchError 1 exLowSession).isTracking = false ∧
    (onWatchError 1 exLowSession).watchId = none ∧
    (onWatchError 1 exLowSession).wakeHeld = false ∧
    (onWatchError 1 exHighSession).watchHigh = false :=
  ⟨((onWatchError_permission exLowSession).1 rfl).2.1,
   ((onWatchError_permission exLowSession).1 rfl).1,
   ((onWatchError_permission exLowSession).1 rfl).2.2.1,
   ((onWatchError_permission exHighSession).2 rfl).1⟩

/-! ## Theorems: accuracy fallback timer (claim C6) -/

/-- C6, counterexample: the fallback timer armed when tracking starts is a
6000 ms (6-second) timeout, not an 8-second one. -/
theorem fallbackTimer_is_six_seconds :
    (startTracking true exIdleSession).fallbackTimer = some 6000 ∧
    (startTracking true exIdleSession).fallbackTimer ≠ some 8000 := by
  decide

/-- C6 (amended): when tracking starts, the manager subscribes in
high-accuracy mode and arms a 6-second (6000 ms) fallback timer; if a
position arrives before the timer fires, the timer is cancelled and the
session stays on the same high-accuracy subscription; if the timer fires
with no position yet received, the high-accuracy subscription is cancelled
(its watch id is passed to `clearWatch`) and the manager re-subscribes with
reduced accuracy requirements, arming no new timer. -/
theorem startTracking_fallback (wakeOk : Bool) (s : GeoSession)
    (hm : s.userMarker = none) :
    (startTracking wakeOk s).watchHigh = true ∧
    (startTracking wakeOk s).watchId = some s.nextWatchId ∧
    (startTracking wakeOk s).fallbackTimer = some 6000 ∧
    (startTracking wakeOk s).isTracking = true ∧
    (∀ lat lng acc,
      (onWatchPosition lat lng acc (startTracking wakeOk s)).fallbackTimer = none ∧
      (onWatchPosition lat lng acc (startTracking wakeOk s)).watchId =
        some s.nextWatchId ∧
      (onWatchPosition lat lng acc (startTracking wakeOk s)).watchHigh = true) ∧
    ((onFallbackTimerFire (startTracking wakeOk s)).watchHigh = false ∧
     (onFallbackTimerFire (startTracking wakeOk s)).watchId =
       some (s.nextWatchId + 1) ∧
     s.nextWatchId ∈ (onFallbackTimerFire (startTracking wakeOk s)).cleared ∧
     (onFallbackTimerFire (startTracking wakeOk s)).fallbackTimer = none) := by
  obtain ⟨wid, wh, ft, um, ac, tr, wk, rl, nw, cl, ts⟩ := s
  simp only at hm
  subst hm
  cases wid <;>
    simp [startTracking, startWatchingPosition, clearWatch, clearFallbackTimer,
      onWatchPosition, updateUserMarker, onFallbackTimerFire]

/-- C6, witness: the amended theorem applied to the idle session. -/
theorem startTracking_fallback_witness :
    (startTracking true exIdleSession).fallbackTimer = some 6000 ∧
    (onFallbackTimerFire (startTracking true exIdleSession)).watchHigh = false :=
  ⟨(startTracking_fallback true exIdleSession rfl).2.2.1,
   (startTracking_fallback true exIdleSession rfl).2.2.2.2.2.1⟩

/-! ## Theorems: stale route response after stop (claim C7) -/

/-- C7: evaluation of the code at the failing input.  Stopping tracking
while a `drawRoute` request is in flight does not prevent the late-arriving
response from being applied: `stopTrackingInternal` tears the watch down
but performs no session-generation bookkeeping and does not cancel the
pending fetch, so the success continuation still installs the route layer
afterwards. -/
theorem staleRoute_applied_after_stop :
    (stopTrackingInternal exTrackSession).isTracking = false ∧
    (stopTrackingInternal exTrackSession).watchId = none ∧
    (stopTrackingInternal exTrackSession).routeLayer = none ∧
    (applyRouteSuccess [(5, 6), (7, 8)]
        (stopTrackingInternal exTrackSession)).routeLayer =
      some [(5, 6), (7, 8)] := by
  decide

/-! ## Theorems: urgency tiers (claim C1) -/

/-- C1, counterexample: it is not the case that every produced
`NavigationInstruction` follows the 40/100 tiering — the "approaching
destination" instruction produced on a single-step route at a rounded
distance of 101 m has urgency `warning` (per the spec's last-step rule
"critical below 50 m, else warning"), where the claim requires `normal`. -/
theorem urgency_claim_counterexample :
    ¬ (∀ (stepDists : List ℚ) (inst : NavigationInstruction),
        navInstruction stepDists = some inst →
        ((inst.urgency = Urgency.critical ↔ inst.distanceMeters ≤ 40) ∧
         (inst.urgency = Urgency.warning ↔
            (40 < inst.distanceMeters ∧ inst.distanceMeters ≤ 100)) ∧
         (inst.urgency = Urgency.normal ↔ 100 < inst.distanceMeters))) := by
  intro h
  have h1 := h [(101 : ℚ)] ⟨0, 101, true, Urgency.warning⟩ (by decide)
  exact absurd (h1.2.1.mp rfl).2 (by decide)

lemma urgencyTier_false_spec (d : ℤ) :
    (urgencyTier false d = Urgency.critical ↔ d ≤ 40) ∧
    (urgencyTier false d = Urgency.warning ↔ (40 < d ∧ d ≤ 100)) ∧
    (urgencyTier false d = Urgency.normal ↔ 100 < d) := by
  unfold urgencyTier
  split_ifs with h1 h2 <;> simp_all
  omega

lemma urgencyTier_true_spec (d : ℤ) :
    (urgencyTier true d = Urgency.critical ↔ d < 50) ∧
    (urgencyTier true d = Urgency.warning ↔ 50 ≤ d) ∧
    urgencyTier true d ≠ Urgency.normal := by
  unfold urgencyTier
  split_ifs with h1 <;> simp_all

/-- C1 (amended): a produced `NavigationInstruction` targeting a next
maneuver (closest step not the last) has urgency determined by the rounded
distance: critical iff it is at most 40 m, warning iff it is more than 40 m
and at most 100 m, normal otherwise — so at 41 m it is never critical,
100 m yields warning and 101 m yields normal.  The "approaching
destination" instruction (closest step is the last step) instead is
critical iff the distance is below 50 m and warning otherwise — never
normal. -/
theorem navInstruction_urgency (stepDists : List ℚ)
    (inst : NavigationInstruction)
    (h : navInstruction stepDists = some inst) :
    (inst.approachingDest = false →
      ((inst.urgency = Urgency.critical ↔ inst.distanceMeters ≤ 40) ∧
       (inst.urgency = Urgency.warning ↔
          (40 < inst.distanceMeters ∧ inst.distanceMeters ≤ 100)) ∧
       (inst.urgency = Urgency.normal ↔ 100 < inst.distanceMeters))) ∧
    (inst.approachingDest = true →
      ((inst.urgency = Urgency.critical ↔ inst.distanceMeters < 50) ∧
       (inst.urgency = Urgency.warning ↔ 50 ≤ inst.distanceMeters) ∧
       inst.urgency ≠ Urgency.normal)) := by
  cases hn : nearestIndex stepDists with
  | none => simp [navInstruction, hn] at h
  | some ci =>
    cases hg : stepDists.get? (ci + 1) with
    | some dq =>
      simp only [navInstruction, hn, hg, Option.some.injEq] at h
      subst h
      exact ⟨fun _ => urgencyTier_false_spec (jsRound dq), fun hb => by simp at hb⟩
    | none =>
      simp only [navInstruction, hn, hg, Option.some.injEq] at h
      subst h
      exact ⟨fun hb => by simp at hb,
        fun _ => urgencyTier_true_spec (jsRound (stepDists.getD ci 0))⟩

/-- C1, witness for the amended theorem: on a two-step route with the
closest step first and the target 80 m away, the instruction is a warning
and indeed 40 < 80 ≤ 100. -/
theorem navInstruction_urgency_witness :
    navInstruction [(10 : ℚ), 80] = some ⟨1, 80, false, Urgency.warning⟩ ∧
    ((40 : ℤ) < 80 ∧ (80 : ℤ) ≤ 100) :=
  ⟨by decide,
   (((navInstruction_urgency [(10 : ℚ), 80] ⟨1, 80, false, Urgency.warning⟩
        (by decide)).1 rfl).2.1).mp rfl⟩

/-! ## Theorems: route fallback and arrived (claims C2, C4) -/

lemma firstDelivered_allFail (att : ℕ → AttemptOutcome)
    (hall : ∀ j, att j = AttemptOutcome.netFail) :
    ∀ k i, firstDelivered att k i = (none, k) := by
  intro k
  induction k with
  | zero => intro i; rfl
  | succ k ih => intro i; simp [firstDelivered, hall, ih]

/-- C2: when the attempt budget is exhausted (every attempt is a network
failure or non-2xx status) or the delivered response is malformed
(non-success code or no routes), the route computation returns the
straight-line `FallbackRoute`: the two-point polyline origin-destination,
distance equal to the great-circle distance `d`, and an empty step list —
never no route at all. -/
theorem computeRoute_fallback (origin dest : GeoPoint) (d : ℚ)
    (att : ℕ → AttemptOutcome) (budget : ℕ) (hd : ¬ d < 50) :
    ((∀ i, att i = AttemptOutcome.netFail) →
      computeRoute origin dest d att budget =
        (RouteResult.fallback [origin, dest] d [], budget)) ∧
    (∀ ok rs n, firstDelivered att budget 0 = (some (ok, rs), n) →
      (ok = false ∨ rs = []) →
      (computeRoute origin dest d att budget).1 =
        RouteResult.fallback [origin, dest] d []) := by
  constructor
  · intro hall
    simp [computeRoute, hd, firstDelivered_allFail att hall]
  · intro ok rs n hfd hbad
    rcases hbad with hb | hb
    · subst hb
      simp [computeRoute, hd, hfd]
    · subst hb
      cases ok <;> simp [computeRoute, hd, hfd]

/-- C2, witness: three consecutive network failures yield the straight-line
fallback with the two-point segment, distance 60 and no steps, after the
full budget of requests. -/
theorem computeRoute_fallback_witness :
    computeRoute ⟨0, 0⟩ ⟨1, 1⟩ 60 (fun _ => AttemptOutcome.netFail)
        computeRouteBudget =
      (RouteResult.fallback [⟨0, 0⟩, ⟨1, 1⟩] 60 [], computeRouteBudget) :=
  (computeRoute_fallback ⟨0, 0⟩ ⟨1, 1⟩ 60 (fun _ => AttemptOutcome.netFail)
      computeRouteBudget (by norm_num)).1 (fun _ => rfl)

/-- C4: whenever the great-circle distance between origin and destination
is below 50 meters, the route computation issues no HTTP request at all
(request count 0) and immediately reports "arrived" with the distance
rounded to the nearest meter. -/
theorem computeRoute_arrived (origin dest : GeoPoint) (d : ℚ)
    (att : ℕ → AttemptOutcome) (budget : ℕ) (hd : d < 50) :
    computeRoute origin dest d att budget =
      (RouteResult.arrived (jsRound d), 0) := by
  simp [computeRoute, hd]

/-- C4, witness: at distance 0 (origin equals destination) the result is
"arrived 0" with no request; at distance 30.4 m it is "arrived 30" with no
request. -/
theorem computeRoute_arrived_witness :
    computeRoute ⟨7, 8⟩ ⟨7, 8⟩ 0 (fun _ => AttemptOutcome.netFail)
        computeRouteBudget = (RouteResult.arrived 0, 0) ∧
    computeRoute ⟨0, 0⟩ ⟨1, 1⟩ (mkRat 152 5) (fun _ => AttemptOutcome.netFail)
        computeRouteBudget = (RouteResult.arrived 30, 0) := by
  constructor
  · rw [computeRoute_arrived ⟨7, 8⟩ ⟨7, 8⟩ 0 (fun _ => AttemptOutcome.netFail)
      computeRouteBudget (by norm_num)]
    decide
  · rw [computeRoute_arrived ⟨0, 0⟩ ⟨1, 1⟩ (mkRat 152 5)
      (fun _ => AttemptOutcome.netFail) computeRouteBudget (by decide)]
    decide

/-! ## Theorems: pin import parser (claim C10) -/

lemma parseLine_isSome (i : ℕ) (line : Str) :
    (parseLine i line).isSome = amendedLineYields line := by
  unfold parseLine amendedLineYields coordsOfLine
  by_cases ht : (trimList line).isEmpty
  · simp [ht]
  · rw [Bool.not_eq_true] at ht
    simp only [ht, Bool.not_false, Bool.true_and, Bool.false_eq_true, if_false]
    cases hidx : googleLinkIdx (lineFields line) with
    | some mi =>
      cases hex : extractCoordsFromUrl (fieldAt (lineFields line) mi) with
      | none => simp [hex]
      | some p =>
        obtain ⟨la, lo⟩ := p
        simp [hex]
    | none =>
      cases h0 : jsParseFloat (fieldAt (lineFields line) 0) with
      | none =>
        by_cases hlen : 2 ≤ (lineFields line).length <;> simp [hlen]
      | some la =>
        cases h1 : jsParseFloat (fieldAt (lineFields line) 1) with
        | none =>
          by_cases hlen : 2 ≤ (lineFields line).length <;> simp [hlen]
        | some lo =>
          by_cases hlen : 2 ≤ (lineFields line).length <;> simp [hlen]

lemma parseLine_coords (i : ℕ) (line : Str) (n : Str) (la lo : ℚ)
    (h : parseLine i line = some (n, la, lo)) :
    coordsOfLine line = some (la, lo) := by
  unfold parseLine at h
  by_cases ht : (trimList line).isEmpty
  · rw [if_pos ht] at h
    exact absurd h (by simp)
  · rw [if_neg ht] at h
    unfold coordsOfLine
    cases hidx : googleLinkIdx (lineFields line) with
    | some mi =>
      rw [hidx] at h
      cases hex : extractCoordsFromUrl (fieldAt (lineFields line) mi) with
      | none => simp [hex] at h
      | some p =>
        obtain ⟨la0, lo0⟩ := p
        simp only [hex, Option.some.injEq, Prod.mk.injEq] at h
        simp [hex, h.2.1, h.2.2]
    | none =>
      rw [hidx] at h
      by_cases hlen : 2 ≤ (lineFields line).length
      · rw [if_pos hlen] at h
        cases h0 : jsParseFloat (fieldAt (lineFields line) 0) with
        | none => simp [h0] at h
        | some la0 =>
          cases h1 : jsParseFloat (fieldAt (lineFields line) 1) with
          | none => simp [h0, h1] at h
          | some lo0 =>
            simp only [h0, h1, Option.some.injEq, Prod.mk.injEq] at h
            simp [h0, h1, hlen, h.2.1, h.2.2]
      · rw [if_neg hlen] at h
        exact absurd h (by simp)

lemma handleParse_length_aux (now : ℕ) (ls : List Str) :
    ∀ k, ((List.enumFrom k ls).filterMap
        (fun pr => (parseLine pr.1 pr.2).map (mkImportedPoint now pr.1))).length =
      (ls.filter amendedLineYields).length := by
  induction ls with
  | nil => intro k; rfl
  | cons l tl ih =>
    intro k
    have hiff := parseLine_isSome k l
    cases hp : parseLine k l with
    | none =>
      rw [hp] at hiff
      have hy : amendedLineYields l = false := by simpa using hiff.symm
      simp [List.enumFrom, List.filterMap_cons, List.filter_cons, hp, hy, ih (k + 1)]
    | some r =>
      rw [hp] at hiff
      have hy : amendedLineYields l = true := by simpa using hiff.symm
      simp [List.enumFrom, List.filterMap_cons, List.filter_cons, hp, hy, ih (k + 1)]

/-- C10, counterexample: the claim's selection predicate is tested against
the whole line, but the source applies coordinate extraction to the
tab/comma-separated field containing the link.  On the single-line input
`https://www.google.com/maps?q=16.4,103.5` (no tabs), the line is split on
the URL's own coordinate comma, extraction on the truncated field fails,
and `handleParse` yields no point — although the line does contain a
Google-Maps URL from which the `q=16.4,103.5` pair can be extracted, so the
claim requires a point. -/
theorem parse_claim_counterexample :
    claimedLineYields exLineC = true ∧
    handleParse 0 exLineC = [] ∧
    ¬ (∀ (i : ℕ) (line : Str),
        (parseLine i line).isSome = claimedLineYields line) := by
  refine ⟨by decide, by decide, fun h => absurd (h 0 exLineC) (by decide)⟩

/-- C10 (amended): `handleParse` is total and selective: a line of the
(trimmed) input yields a `CustomerPoint` iff it is not blank and either its
first tab/comma-separated trimmed field containing a Google-Maps link
yields an extractable decimal `q=lat,lng` or `@lat,lng` pair — extraction
applies to that field, not to the whole line — or, when no field contains
such a link, its first two fields both parse as numbers; every other line
is skipped, the produced point count equals the count of selected lines,
and each produced point's lat/lng equal the coordinates parsed from its own
line (from the link field, or from the first two fields). -/
theorem handleParse_characterization (now i : ℕ) (text line : Str) :
    (handleParse now text).length =
      ((splitOnChar '\n' (trimList text)).filter amendedLineYields).length ∧
    (parseLine i line).isSome = amendedLineYields line ∧
    (∀ n la lo, parseLine i line = some (n, la, lo) →
      coordsOfLine line = some (la, lo)) := by
  refine ⟨?_, parseLine_isSome i line,
    fun n la lo h => parseLine_coords i line n la lo h⟩
  unfold handleParse
  exact handleParse_length_aux now (splitOnChar '\n' (trimList text)) 0

/-- C10, witness: on the tab-separated sample line the parser produces the
point named by the first field with the coordinates of the `q=` pair, and
the amended characterization recovers exactly those coordinates. -/
theorem handleParse_characterization_witness :
    parseLine 0 exLineW =
      some (("Ton").data, mkRat 16440272 1000000, mkRat 103497242 1000000) ∧
    coordsOfLine exLineW =
      some (mkRat 16440272 1000000, mkRat 103497242 1000000) :=
  ⟨by decide,
   (handleParse_characterization 0 0 [] exLineW).2.2 (("Ton").data)
     (mkRat 16440272 1000000) (mkRat 103497242 1000000) (by decide)⟩

end PinCustomer
